import Mathlib

/-!
Verification of the hydra supervision engine (src/hydra/src/supervisor.rs) and
the remote-node session tasks (src/hydra/src/node_remote.rs).

The Rust code is embedded shallowly:
* machine state (the `Supervisor` struct, mailboxes, link sets) becomes
  explicit record / list values that every operation threads through;
* `Instant` / `Duration` become `Nat` (an abstract clock; `Instant - Duration`
  uses truncated subtraction);
* fallible or panicking code returns `Option` (`none` models a Rust panic,
  an `unreachable!`, or an `unimplemented!`);
* side effects (messages sent, children started, exit signals emitted) are
  collected into explicit action traces.

Primitives of the process runtime that are not part of the sources under
verification (selective receive, receive timeouts, unlink, message drop) are
modelled from the specification document and are marked as such in their
doc comments.
-/

/-- Process identifier. The runtime's `Pid` is an opaque cluster-unique token;
equality is structural, which a single serial number captures. -/
structure Pid where
  serial : Nat
deriving DecidableEq, Repr

/-- A node-local unique token used to tag monitors. -/
structure Reference where
  id : Nat
deriving DecidableEq, Repr

/-- Exit reason of a process: `Normal | Kill | Custom(string)`. -/
inductive ExitReason where
  | normal
  | kill
  | custom (reason : String)
deriving DecidableEq, Repr

/-- `ExitReason::is_normal`: only `Normal` is normal. -/
def ExitReason.is_normal : ExitReason → Bool
  | .normal => true
  | _ => false

/-- Modelled from the spec: the start thunk may opt out with the distinguished
`Ignore` reason (`ExitReason::is_ignore`, whose implementation is outside
src/); it is the custom reason "ignore". -/
def ExitReason.is_ignore : ExitReason → Bool
  | .custom reason => reason = "ignore"
  | _ => false

/-- Modelled from the spec: equality of an `ExitReason` against the literal
string "shutdown" (the `PartialEq<&str>` impl is outside src/) holds exactly
for the custom reason "shutdown". -/
def reason_is_shutdown (reason : ExitReason) : Bool :=
  match reason with
  | .custom s => s = "shutdown"
  | _ => false

/-- System messages visible in a mailbox. -/
inductive SystemMessage where
  | exit (from_pid : Pid) (reason : ExitReason)
  | processDown (pid : Pid) (tag : Reference) (reason : ExitReason)
deriving DecidableEq, Repr

/-- A mailbox message: a user message or a system message. -/
inductive Message (α : Type) where
  | user (message : α)
  | system (message : SystemMessage)
deriving DecidableEq, Repr

/-- The restart class of a child. -/
inductive Restart where
  | permanent
  | transient
  | temporary
deriving DecidableEq, Repr

/-- How a child should be terminated. Durations are abstract naturals
(milliseconds). -/
inductive Shutdown where
  | brutalKill
  | duration (d : Nat)
  | infinity
deriving DecidableEq, Repr

/-- Whether a child is a worker or a nested supervisor. -/
inductive ChildType where
  | worker
  | supervisor
deriving DecidableEq, Repr

/-- The auto-shutdown mode of a supervisor. -/
inductive AutoShutdown where
  | never
  | anySignificant
  | allSignificant
deriving DecidableEq, Repr

/-- The supervision strategy. -/
inductive SupervisionStrategy where
  | oneForOne
  | oneForAll
  | restForOne
deriving DecidableEq, Repr

/-- A child specification. The start thunk is embedded by its (deterministic)
result: `Ok(pid)` or `Err(reason)`, where an `Ignore` reason means the child
opted out of starting. -/
structure ChildSpec where
  id : String
  start : Except ExitReason Pid
  restart : Restart
  shutdown : Option Shutdown
  child_type : ChildType
  significant : Bool
deriving Repr

/-- A supervised child: its spec plus the pid slot. -/
structure SupervisedChild where
  spec : ChildSpec
  pid : Option Pid
deriving Repr

/-- Messages a supervisor posts to itself. -/
inductive SupervisorMessage where
  | tryAgainRestartPid (pid : Pid)
  | tryAgainRestartId (id : String)
deriving DecidableEq, Repr

/-- The supervisor state. `identifiers` embeds the `BTreeSet<String>` as a
duplicate-free list queried by membership; `restarts` is the list of restart
instants (abstract naturals). -/
structure Supervisor where
  children : List SupervisedChild
  identifiers : List String
  restarts : List Nat
  strategy : SupervisionStrategy
  auto_shutdown : AutoShutdown
  max_restarts : Nat
  max_duration : Nat
deriving Repr

/-- `Supervisor::new`: no children, OneForOne, Never, 3 restarts per 5s. -/
def Supervisor.new : Supervisor :=
  { children := []
    identifiers := []
    restarts := []
    strategy := .oneForOne
    auto_shutdown := .never
    max_restarts := 3
    max_duration := 5000 }

/-- `SupervisedChild::is_permanent`. -/
def SupervisedChild.is_permanent (c : SupervisedChild) : Bool :=
  match c.spec.restart with
  | .permanent => true
  | _ => false

/-- `SupervisedChild::is_transient`. -/
def SupervisedChild.is_transient (c : SupervisedChild) : Bool :=
  match c.spec.restart with
  | .transient => true
  | _ => false

/-- `SupervisedChild::is_temporary`. -/
def SupervisedChild.is_temporary (c : SupervisedChild) : Bool :=
  match c.spec.restart with
  | .temporary => true
  | _ => false

/-- `SupervisedChild::shutdown`: the declared policy, or the default for the
child type (5s for workers, infinity for nested supervisors). -/
def shutdown_policy (c : SupervisedChild) : Shutdown :=
  match c.spec.shutdown with
  | none =>
    match c.spec.child_type with
    | .worker => .duration 5000
    | .supervisor => .infinity
  | some sd => sd

/-- `Supervisor::add_child`: panics (`none`) when the id is already recorded;
otherwise records the id and appends the child with an empty pid slot. -/
def add_child (s : Supervisor) (child : ChildSpec) : Option Supervisor :=
  if child.id ∈ s.identifiers then
    none
  else
    some { s with
            identifiers := child.id :: s.identifiers
            children := s.children ++ [{ spec := child, pid := none }] }

/-- `Supervisor::remove_child`: removes the child at `index` from the vector
and erases its id from the identifier set. `none` in the second component
models the Rust panic on an out-of-range index (unreachable in all callers). -/
def remove_child (s : Supervisor) (index : Nat) : Supervisor × Option SupervisedChild :=
  match s.children[index]? with
  | none => (s, none)
  | some child =>
    ({ s with
        children := s.children.eraseIdx index
        identifiers := s.identifiers.erase child.spec.id },
     some child)

/-- `Supervisor::find_child`: the position of the child whose pid slot holds
the given pid. -/
def find_child (s : Supervisor) (pid : Pid) : Option Nat :=
  s.children.findIdx? (fun child => child.pid = some pid)

/-- `Supervisor::check_auto_shutdown`, translated verbatim: `Never` is always
false, a non-significant child is always false, `AnySignificant` is true, and
otherwise (`AllSignificant`) the result is `children.iter().any(...)` over the
remaining children — note the source returns the `any` directly. -/
def check_auto_shutdown (s : Supervisor) (child : SupervisedChild) : Bool :=
  if s.auto_shutdown = .never then
    false
  else if !child.spec.significant then
    false
  else if s.auto_shutdown = .anySignificant then
    true
  else
    s.children.any (fun c => if c.pid.isNone then false else c.spec.significant)

/-- `Supervisor::add_restart`: drop restart instants older than
`now - max_duration` (truncated at zero), push `now`, and report whether the
backlog now exceeds `max_restarts`. -/
def add_restart (s : Supervisor) (now : Nat) : Supervisor × Bool :=
  let threshold := now - s.max_duration
  let restarts := s.restarts.filter (fun r => threshold ≤ r) ++ [now]
  ({ s with restarts := restarts }, restarts.length > s.max_restarts)

/-- Observable supervisor-side effects, collected as a trace. -/
inductive SupAction where
  | setTrapExit
  | startedChild (id : String) (pid : Option Pid)
  | shutdownChild (pid : Pid) (policy : Shutdown)
  | castTryAgainRestartId (id : String)
deriving DecidableEq, Repr

/-- `Supervisor::start_child`, classification of the thunk result:
`Ok(pid)` records `Some(pid)`, an `Ignore` error records `None`, any other
error propagates. -/
def start_child_spec (c : SupervisedChild) : Except ExitReason (Option Pid) :=
  match c.spec.start with
  | .ok pid => .ok (some pid)
  | .error reason => if reason.is_ignore then .ok none else .error reason

/-- `Supervisor::restart`, by strategy. OneForOne starts child `index` again:
on success the pid slot is updated, on failure `TryAgainRestartId(id)` is cast
to the supervisor itself. RestForOne's body is an empty stub in the source;
OneForAll is `unimplemented!()`, modelled as `none`. The `none` for a missing
index models the Rust indexing panic (unreachable in callers). -/
def restart (s : Supervisor) (index : Nat) : Option (Supervisor × List SupAction) :=
  match s.strategy with
  | .oneForOne =>
    match s.children[index]? with
    | none => none
    | some child =>
      match start_child_spec child with
      | .ok pid =>
        some ({ s with children := s.children.set index { child with pid := pid } },
              [.startedChild child.spec.id pid])
      | .error _ => some (s, [.castTryAgainRestartId child.spec.id])
  | .restForOne => some (s, [])
  | .oneForAll => none

/-- `Supervisor::restart_child`, translated from the if-chain in the source:
lookup by pid (not found is ignored); a permanent child counts a restart and
is restarted (or the supervisor dies with "shutdown" when the quota trips);
otherwise a Normal or "shutdown" reason removes the child and runs the
auto-shutdown check; otherwise a transient child counts a restart and is
restarted; otherwise a temporary child is removed with the auto-shutdown
check. The result carries the new state, the action trace, and the
supervisor's own exit reason when it must terminate. -/
def restart_child (s : Supervisor) (pid : Pid) (reason : ExitReason) (now : Nat) :
    Option (Supervisor × List SupAction × Option ExitReason) :=
  match find_child s pid with
  | none => some (s, [], none)
  | some index =>
    match s.children[index]? with
    | none => none
    | some child =>
      if child.is_permanent then
        if (add_restart s now).2 then
          some ((add_restart s now).1, [], some (ExitReason.custom "shutdown"))
        else
          match restart (add_restart s now).1 index with
          | none => none
          | some r => some (r.1, r.2, none)
      else if reason.is_normal || reason_is_shutdown reason then
        match (remove_child s index).2 with
        | none => none
        | some removed =>
          if check_auto_shutdown (remove_child s index).1 removed then
            some ((remove_child s index).1, [], some (ExitReason.custom "shutdown"))
          else
            some ((remove_child s index).1, [], none)
      else if child.is_transient then
        if (add_restart s now).2 then
          some ((add_restart s now).1, [], some (ExitReason.custom "shutdown"))
        else
          match restart (add_restart s now).1 index with
          | none => none
          | some r => some (r.1, r.2, none)
      else if child.is_temporary then
        match (remove_child s index).2 with
        | none => none
        | some removed =>
          if check_auto_shutdown (remove_child s index).1 removed then
            some ((remove_child s index).1, [], some (ExitReason.custom "shutdown"))
          else
            some ((remove_child s index).1, [], none)
      else
        some (s, [], none)

/-- "Restart, counting toward the restart quota": record the restart, die with
"shutdown" if the quota is exceeded, otherwise run the strategy restart. -/
def restart_counting_quota (s : Supervisor) (index : Nat) (now : Nat) :
    Option (Supervisor × List SupAction × Option ExitReason) :=
  if (add_restart s now).2 then
    some ((add_restart s now).1, [], some (ExitReason.custom "shutdown"))
  else
    match restart (add_restart s now).1 index with
    | none => none
    | some r => some (r.1, r.2, none)

/-- "Remove, with an auto-shutdown check": remove the child, then die with
"shutdown" when the auto-shutdown check fires. -/
def remove_with_auto_shutdown (s : Supervisor) (index : Nat) :
    Option (Supervisor × List SupAction × Option ExitReason) :=
  match (remove_child s index).2 with
  | none => none
  | some removed =>
    if check_auto_shutdown (remove_child s index).1 removed then
      some ((remove_child s index).1, [], some (ExitReason.custom "shutdown"))
    else
      some ((remove_child s index).1, [], none)

/-- The claim's decision table for `System(Exit(pid, reason))`, organized by
restart class: an unknown pid is ignored; Permanent restarts (counting the
quota) for every reason; Transient removes on Normal or "shutdown" and
restarts (counting the quota) otherwise; Temporary removes for every reason. -/
def restart_child_claim (s : Supervisor) (pid : Pid) (reason : ExitReason) (now : Nat) :
    Option (Supervisor × List SupAction × Option ExitReason) :=
  match find_child s pid with
  | none => some (s, [], none)
  | some index =>
    match s.children[index]? with
    | none => none
    | some child =>
      match child.spec.restart with
      | .permanent => restart_counting_quota s index now
      | .transient =>
        if reason.is_normal || reason_is_shutdown reason then
          remove_with_auto_shutdown s index
        else
          restart_counting_quota s index now
      | .temporary => remove_with_auto_shutdown s index

/-- `Supervisor::handle_cast`: only `TryAgainRestartPid` is matched (with an
empty body); every other message — including `TryAgainRestartId` — falls into
the `unreachable!()` arm, modelled as `none`. -/
def handle_cast (s : Supervisor) (message : SupervisorMessage) :
    Option (Supervisor × Option ExitReason) :=
  match message with
  | .tryAgainRestartPid _ => some (s, none)
  | _ => none

/-- A significant permanent child specification (concrete test data). -/
def sigSpecC1 : ChildSpec :=
  { id := "sig"
    start := .ok ⟨1⟩
    restart := .permanent
    shutdown := none
    child_type := .worker
    significant := true }

/-- Supervisor in `AllSignificant` mode with one remaining significant child
whose pid slot is occupied. -/
def supLiveSigC1 : Supervisor :=
  { Supervisor.new with
      auto_shutdown := .allSignificant
      children := [{ spec := sigSpecC1, pid := some ⟨5⟩ }]
      identifiers := ["sig"] }

/-- Supervisor in `AllSignificant` mode with no remaining children. -/
def supNoLiveC1 : Supervisor :=
  { Supervisor.new with auto_shutdown := .allSignificant }

/-- A significant child that was just removed. -/
def removedC1 : SupervisedChild := { spec := sigSpecC1, pid := none }

/-- C1: the claim states that in `AllSignificant` mode, `check_auto_shutdown`
of a significant removed child returns true exactly when no remaining child
with `significant && pid.is_some()` exists. The code returns the opposite: it
answers `true` when such a remaining child exists (first conjunct) and `false`
when none remains (second conjunct) — the negation is missing in the source. -/
theorem check_auto_shutdown_all_significant_inverted :
    check_auto_shutdown supLiveSigC1 removedC1 = true ∧
    check_auto_shutdown supNoLiveC1 removedC1 = false := by
  exact ⟨rfl, rfl⟩

/-- C2: `restart_child` implements exactly the claim's decision table: an exit
of an unknown pid is ignored with the state unchanged; a Permanent child is
restarted (counting toward the restart quota) for every reason; a Transient
child is removed (with an auto-shutdown check) when the reason is Normal or
"shutdown" and restarted (counting toward the quota) otherwise; a Temporary
child is removed (with an auto-shutdown check) for every reason. -/
theorem restart_child_matches_claim (s : Supervisor) (pid : Pid)
    (reason : ExitReason) (now : Nat) :
    restart_child s pid reason now = restart_child_claim s pid reason now := by
  unfold restart_child restart_child_claim
  cases hfind : find_child s pid with
  | none => rfl
  | some index =>
    cases hget : s.children[index]? with
    | none => simp [hget]
    | some child =>
      cases hr : child.spec.restart with
      | permanent =>
        simp [hget, SupervisedChild.is_permanent, hr, restart_counting_quota]
      | transient =>
        by_cases hn : (reason.is_normal || reason_is_shutdown reason) = true
        · simp [hget, SupervisedChild.is_permanent, SupervisedChild.is_transient, hr, hn,
                remove_with_auto_shutdown]
        · simp [hget, SupervisedChild.is_permanent, SupervisedChild.is_transient, hr, hn,
                restart_counting_quota]
      | temporary =>
        by_cases hn : (reason.is_normal || reason_is_shutdown reason) = true
        · simp [hget, SupervisedChild.is_permanent, SupervisedChild.is_transient,
                SupervisedChild.is_temporary, hr, hn, remove_with_auto_shutdown]
        · simp [hget, SupervisedChild.is_permanent, SupervisedChild.is_transient,
                SupervisedChild.is_temporary, hr, hn, remove_with_auto_shutdown]

/-- C3: every `add_restart` call first discards timestamps older than
`now - max_duration` and appends `now` (first conjunct); it reports "quota
exceeded" exactly when the resulting backlog is longer than `max_restarts`
(second conjunct); afterwards every recorded restart lies in the window
`[now - max_duration, now]` (third and fourth conjuncts); a call made while
the quota was not yet exceeded leaves at most `max_restarts + 1` recorded
restarts (fifth conjunct); and a permanent child exit that trips the quota
makes the supervisor terminate with reason "shutdown" (last conjunct). -/
theorem add_restart_correct (s : Supervisor) (now : Nat) :
    (add_restart s now).1.restarts
        = s.restarts.filter (fun r => now - s.max_duration ≤ r) ++ [now] ∧
    ((add_restart s now).2 = true ↔
        (add_restart s now).1.restarts.length > s.max_restarts) ∧
    (∀ t ∈ (add_restart s now).1.restarts, now - s.max_duration ≤ t) ∧
    ((∀ t ∈ s.restarts, t ≤ now) → ∀ t ∈ (add_restart s now).1.restarts, t ≤ now) ∧
    (s.restarts.length ≤ s.max_restarts →
        (add_restart s now).1.restarts.length ≤ s.max_restarts + 1) ∧
    (∀ pid reason index child, find_child s pid = some index →
        s.children[index]? = some child → child.is_permanent = true →
        (add_restart s now).2 = true →
        restart_child s pid reason now
          = some ((add_restart s now).1, [], some (ExitReason.custom "shutdown"))) := by
  refine ⟨rfl, by simp [add_restart], ?_, ?_, ?_, ?_⟩
  · intro t ht
    simp only [add_restart, List.mem_append, List.mem_filter,
      List.mem_singleton, decide_eq_true_eq] at ht
    rcases ht with ⟨_, h⟩ | h
    · exact h
    · omega
  · intro hbound t ht
    simp only [add_restart, List.mem_append, List.mem_filter,
      List.mem_singleton, decide_eq_true_eq] at ht
    rcases ht with ⟨hmem, _⟩ | h
    · exact hbound t hmem
    · omega
  · intro hlen
    simp only [add_restart, List.length_append, List.length_singleton]
    have := List.length_filter_le (fun r => decide (now - s.max_duration ≤ r)) s.restarts
    omega
  · intro pid reason index child hfind hget hperm hexc
    unfold restart_child
    simp [hfind, hget, hperm, hexc]

/-- A permanent child specification (concrete test data). -/
def permSpecC3 : ChildSpec :=
  { id := "p"
    start := .ok ⟨9⟩
    restart := .permanent
    shutdown := none
    child_type := .worker
    significant := false }

/-- Supervisor with a zero restart quota and one running permanent child. -/
def supC3 : Supervisor :=
  { Supervisor.new with
      max_restarts := 0
      children := [{ spec := permSpecC3, pid := some ⟨9⟩ }]
      identifiers := ["p"] }

/-- Witness for `add_restart_correct` at a concrete supervisor: with
`max_restarts = 0` the very first restart trips the quota and the exit of the
permanent child terminates the supervisor with "shutdown". -/
theorem add_restart_correct_witness :
    (add_restart supC3 10).1.restarts.length ≤ supC3.max_restarts + 1 ∧
    restart_child supC3 ⟨9⟩ ExitReason.normal 10
      = some ((add_restart supC3 10).1, [], some (ExitReason.custom "shutdown")) := by
  obtain ⟨-, -, -, -, h5, h6⟩ := add_restart_correct supC3 10
  exact ⟨h5 (by decide),
         h6 ⟨9⟩ ExitReason.normal 0 { spec := permSpecC3, pid := some ⟨9⟩ } rfl rfl rfl rfl⟩

/-- Modelled from the spec: `receiver().select(pred)` — selective receive.
Consumes only the first mailbox message matching the predicate, preserving
the order of the others; `none` when no message matches. -/
def selectReceive {α : Type} (p : Message α → Bool) :
    List (Message α) → Option (Message α × List (Message α))
  | [] => none
  | m :: rest =>
    if p m then
      some (m, rest)
    else
      match selectReceive p rest with
      | none => none
      | some (r, ms) => some (r, m :: ms)

/-- Modelled from the spec: `Process::unlink(pid)` removes the (bidirectional)
link with `pid`; only this process's side of the link set is modelled. -/
def unlink (links : List Pid) (pid : Pid) : List Pid :=
  links.erase pid

/-- The mailbox scan inside `unlink_flush`: the `receiver().drop` predicate is
run on every message in order, removing each pending `System(Exit(pid, R))`
and recording its reason (a later match overwrites an earlier one, as the
closure in the source reassigns `reason` on every hit); every other message
stays in place. The drop primitive itself is not under src/ and is modelled
from the spec ("scans the mailbox (non-blocking) and removes any pending
`System(Exit(P, R))` message"). -/
def flush_scan {α : Type} (pid : Pid) (reason : ExitReason) :
    List (Message α) → ExitReason × List (Message α)
  | [] => (reason, [])
  | m :: rest =>
    match m with
    | .system (.exit epid ereason) =>
      if epid = pid then
        flush_scan pid ereason rest
      else
        ((flush_scan pid reason rest).1, m :: (flush_scan pid reason rest).2)
    | _ => ((flush_scan pid reason rest).1, m :: (flush_scan pid reason rest).2)

/-- `unlink_flush(pid, default_reason)`: unlink the process, then flush every
pending exit signal from `pid` out of the mailbox, returning the real exit
reason when one was pending and `default_reason` otherwise, together with the
updated link set and mailbox. -/
def unlink_flush {α : Type} (pid : Pid) (default_reason : ExitReason)
    (links : List Pid) (mbox : List (Message α)) :
    ExitReason × List Pid × List (Message α) :=
  ((flush_scan pid default_reason mbox).1, unlink links pid,
   (flush_scan pid default_reason mbox).2)

/-- The selective-receive filter used by all three shutdown helpers: accept a
`ProcessDown` whose tag equals the monitor reference created for this
shutdown, and nothing else. -/
def shutdown_select {α : Type} (monitor : Reference) (message : Message α) : Bool :=
  match message with
  | .system (.processDown _ tag _) => tag = monitor
  | _ => false

/-- Actions a process performs while shutting another process down. -/
inductive ProcAction where
  | sendExit (pid : Pid) (reason : ExitReason)
  | unlinkFlushCall (pid : Pid) (default_reason : ExitReason)
deriving DecidableEq, Repr

/-- `shutdown_brutal_kill(pid, monitor)`: send `exit(pid, Kill)`, selectively
receive the `ProcessDown` carrying this `monitor` tag, then
`unlink_flush(pid, r)` with the received reason. The mailbox argument holds
the messages the process will ever see; `none` models blocking forever (no
matching `ProcessDown`) or the unreachable non-`ProcessDown` selection. The
result is the link set and mailbox after the flush plus the action trace. -/
def shutdown_brutal_kill {α : Type} (pid : Pid) (monitor : Reference)
    (links : List Pid) (mbox : List (Message α)) :
    Option (List Pid × List (Message α) × List ProcAction) :=
  match selectReceive (shutdown_select monitor) mbox with
  | some (.system (.processDown _ _ reason), rest) =>
    some ((unlink_flush pid reason links rest).2.1,
          (unlink_flush pid reason links rest).2.2,
          [.sendExit pid .kill, .unlinkFlushCall pid reason])
  | some _ => none
  | none => none

/-- `shutdown_timeout(pid, monitor, timeout)`: send `exit(pid, "shutdown")`
and await the `ProcessDown` carrying this `monitor` tag for the duration.
`mbox1` holds the messages available within the timeout window, `mbox2` the
ones arriving later; the wait times out exactly when no matching message is
in `mbox1`, in which case the helper escalates to `shutdown_brutal_kill`
reusing the same monitor over the whole remaining mailbox. -/
def shutdown_timeout {α : Type} (pid : Pid) (monitor : Reference) (_d : Nat)
    (links : List Pid) (mbox1 mbox2 : List (Message α)) :
    Option (List Pid × List (Message α) × List ProcAction) :=
  match selectReceive (shutdown_select monitor) mbox1 with
  | some (.system (.processDown _ _ reason), rest) =>
    some ((unlink_flush pid reason links rest).2.1,
          (unlink_flush pid reason links rest).2.2 ++ mbox2,
          [.sendExit pid (.custom "shutdown"), .unlinkFlushCall pid reason])
  | some _ => none
  | none =>
    match shutdown_brutal_kill pid monitor links (mbox1 ++ mbox2) with
    | none => none
    | some r => some (r.1, r.2.1, .sendExit pid (.custom "shutdown") :: r.2.2)

/-- Selective receive skips a run of non-matching messages and consumes the
first match, leaving the skipped messages in their original positions. -/
theorem selectReceive_split {α : Type} (p : Message α → Bool) (pre : List (Message α))
    (m : Message α) (post : List (Message α))
    (hpre : ∀ x ∈ pre, p x = false) (hm : p m = true) :
    selectReceive p (pre ++ m :: post) = some (m, pre ++ post) := by
  induction pre with
  | nil => simp [selectReceive, hm]
  | cons a pre ih =>
    have ha : p a = false := hpre a (by simp)
    have ih' := ih (fun x hx => hpre x (by simp [hx]))
    simp [selectReceive, ha, ih']

/-- Selective receive finds nothing when no message matches. -/
theorem selectReceive_none {α : Type} (p : Message α → Bool) (l : List (Message α))
    (h : ∀ m ∈ l, p m = false) : selectReceive p l = none := by
  induction l with
  | nil => rfl
  | cons m rest ih =>
    have hm : p m = false := h m (by simp)
    have ih' := ih (fun x hx => h x (by simp [hx]))
    simp [selectReceive, hm, ih']

/-- C4: `shutdown(pid, Duration(d))` sends `exit(pid, "shutdown")` and waits
for a `ProcessDown` selected by the monitor reference of this shutdown — the
filter accepts a `ProcessDown` exactly when its tag is that monitor,
regardless of which pid it reports (first conjunct). When a matching
`ProcessDown(_, monitor, r)` arrives within the window, the helper calls
`unlink_flush(pid, r)` with the received reason and returns, leaving the
skipped messages in place (second conjunct). When no matching message arrives
within the window it escalates to the brutal kill reusing the same monitor
(third conjunct), which sends `exit(pid, Kill)`, waits for that same
monitor's `ProcessDown`, and then unlink-flushes (fourth conjunct). -/
theorem shutdown_timeout_correct {α : Type} (pid q : Pid) (monitor other : Reference)
    (d : Nat) (r : ExitReason) (links : List Pid) (mbox1 mbox2 : List (Message α)) :
    (shutdown_select (α := α) monitor (.system (.processDown q other r)) = true
        ↔ other = monitor) ∧
    (∀ pre post,
        mbox1 = pre ++ Message.system (SystemMessage.processDown q monitor r) :: post →
        (∀ m ∈ pre, shutdown_select monitor m = false) →
        shutdown_timeout pid monitor d links mbox1 mbox2 =
          some ((unlink_flush pid r links (pre ++ post)).2.1,
                (unlink_flush pid r links (pre ++ post)).2.2 ++ mbox2,
                [.sendExit pid (.custom "shutdown"), .unlinkFlushCall pid r])) ∧
    ((∀ m ∈ mbox1, shutdown_select monitor m = false) →
        shutdown_timeout pid monitor d links mbox1 mbox2 =
          (shutdown_brutal_kill pid monitor links (mbox1 ++ mbox2)).map
            (fun x => (x.1, x.2.1, ProcAction.sendExit pid (.custom "shutdown") :: x.2.2))) ∧
    (∀ pre post (mb : List (Message α)),
        mb = pre ++ Message.system (SystemMessage.processDown q monitor r) :: post →
        (∀ m ∈ pre, shutdown_select monitor m = false) →
        shutdown_brutal_kill pid monitor links mb =
          some ((unlink_flush pid r links (pre ++ post)).2.1,
                (unlink_flush pid r links (pre ++ post)).2.2,
                [ProcAction.sendExit pid ExitReason.kill,
                 ProcAction.unlinkFlushCall pid r])) := by
  have hm : shutdown_select (α := α) monitor
      (.system (.processDown q monitor r)) = true := by simp [shutdown_select]
  refine ⟨by simp [shutdown_select], ?_, ?_, ?_⟩
  · intro pre post hmb hpre
    subst hmb
    unfold shutdown_timeout
    rw [selectReceive_split _ pre _ post hpre hm]
  · intro h
    unfold shutdown_timeout
    rw [selectReceive_none _ _ h]
    cases shutdown_brutal_kill pid monitor links (mbox1 ++ mbox2) with
    | none => rfl
    | some x => rfl
  · intro pre post mb hmb hpre
    subst hmb
    unfold shutdown_brutal_kill
    rw [selectReceive_split _ pre _ post hpre hm]

/-- Witness for `shutdown_timeout_correct`: a `ProcessDown` about the right
pid but a foreign monitor reference is skipped, and the `ProcessDown` tagged
with this shutdown's monitor is the one consumed. -/
theorem shutdown_timeout_correct_witness :
    shutdown_timeout (α := Unit) ⟨1⟩ ⟨7⟩ 100 [⟨1⟩]
        [Message.system (SystemMessage.processDown ⟨1⟩ ⟨8⟩ ExitReason.normal),
         Message.system (SystemMessage.processDown ⟨2⟩ ⟨7⟩ (ExitReason.custom "boom"))] [] =
      some ((unlink_flush (α := Unit) ⟨1⟩ (ExitReason.custom "boom") [⟨1⟩]
               [Message.system (SystemMessage.processDown ⟨1⟩ ⟨8⟩ ExitReason.normal)]).2.1,
            (unlink_flush (α := Unit) ⟨1⟩ (ExitReason.custom "boom") [⟨1⟩]
               [Message.system (SystemMessage.processDown ⟨1⟩ ⟨8⟩ ExitReason.normal)]).2.2 ++ [],
            [.sendExit ⟨1⟩ (.custom "shutdown"),
             .unlinkFlushCall ⟨1⟩ (ExitReason.custom "boom")]) := by
  have h := (shutdown_timeout_correct (α := Unit) ⟨1⟩ ⟨2⟩ ⟨7⟩ ⟨8⟩ 100
      (ExitReason.custom "boom") [⟨1⟩]
      [Message.system (SystemMessage.processDown ⟨1⟩ ⟨8⟩ ExitReason.normal),
       Message.system (SystemMessage.processDown ⟨2⟩ ⟨7⟩ (ExitReason.custom "boom"))] []).2.1
  exact h [Message.system (SystemMessage.processDown ⟨1⟩ ⟨8⟩ ExitReason.normal)] []
    rfl (by decide)

/-- Whether a message is a pending exit signal `System(Exit(pid, _))` from
the given pid. -/
def isExitFrom {α : Type} (pid : Pid) : Message α → Bool
  | .system (.exit epid _) => epid = pid
  | _ => false

/-- The flush scan keeps exactly the messages that are not exit signals from
`pid`, in their original order. -/
theorem flush_scan_mailbox {α : Type} (pid : Pid) (reason : ExitReason)
    (l : List (Message α)) :
    (flush_scan pid reason l).2 = l.filter (fun m => !isExitFrom pid m) := by
  induction l generalizing reason with
  | nil => rfl
  | cons m rest ih =>
    cases m with
    | user u => simp [flush_scan, isExitFrom, ih]
    | system sm =>
      cases sm with
      | exit epid ereason =>
        by_cases h : epid = pid
        · simp [flush_scan, isExitFrom, h, ih]
        · simp [flush_scan, isExitFrom, h, ih]
      | processDown p t rea => simp [flush_scan, isExitFrom, ih]

/-- When no exit signal from `pid` is pending, the scan keeps the default. -/
theorem flush_scan_default {α : Type} (pid : Pid) (reason : ExitReason)
    (l : List (Message α)) (h : ∀ m ∈ l, isExitFrom pid m = false) :
    (flush_scan pid reason l).1 = reason := by
  induction l generalizing reason with
  | nil => rfl
  | cons m rest ih =>
    have hm : isExitFrom pid m = false := h m (by simp)
    have ih' := ih reason (fun x hx => h x (by simp [hx]))
    cases m with
    | user u => simpa [flush_scan] using ih'
    | system sm =>
      cases sm with
      | exit epid ereason =>
        have : (epid = pid) = False := by
          simpa [isExitFrom, eq_iff_iff] using hm
        simp [flush_scan, this]
        exact ih'
      | processDown p t rea => simpa [flush_scan] using ih'

/-- The scan returns the reason of the last pending exit signal from `pid`. -/
theorem flush_scan_last {α : Type} (pid : Pid) (reason : ExitReason)
    (pre : List (Message α)) (r : ExitReason) (post : List (Message α))
    (hpost : ∀ m ∈ post, isExitFrom pid m = false) :
    (flush_scan pid reason
        (pre ++ Message.system (SystemMessage.exit pid r) :: post)).1 = r := by
  induction pre generalizing reason with
  | nil => simp [flush_scan, flush_scan_default pid r post hpost]
  | cons m rest ih =>
    cases m with
    | user u => simpa [flush_scan] using ih reason
    | system sm =>
      cases sm with
      | exit epid ereason =>
        by_cases h : epid = pid
        · simpa [flush_scan, h] using ih ereason
        · simpa [flush_scan, h] using ih reason
      | processDown p t rea => simpa [flush_scan] using ih reason

/-- C5: `unlink_flush(P, default)` removes the link to P (first conjunct);
the resulting mailbox is the original one with exactly the pending
`System(Exit(P, _))` messages removed, every other message staying in place
and in order (second conjunct); consequently zero `Exit(P, _)` messages
remain (third conjunct); the returned reason is `default` when no exit signal
from P was pending (fourth conjunct) and the pending reason R when one was
(fifth conjunct, stated for the signal found by the scan). -/
theorem unlink_flush_correct {α : Type} (pid : Pid) (default_reason : ExitReason)
    (links : List Pid) (mbox : List (Message α)) :
    (unlink_flush pid default_reason links mbox).2.1 = links.erase pid ∧
    (unlink_flush pid default_reason links mbox).2.2
        = mbox.filter (fun m => !isExitFrom pid m) ∧
    (∀ r, Message.system (SystemMessage.exit pid r)
        ∉ (unlink_flush pid default_reason links mbox).2.2) ∧
    ((∀ m ∈ mbox, isExitFrom pid m = false) →
        (unlink_flush pid default_reason links mbox).1 = default_reason) ∧
    (∀ pre r post,
        mbox = pre ++ Message.system (SystemMessage.exit pid r) :: post →
        (∀ m ∈ post, isExitFrom pid m = false) →
        (unlink_flush pid default_reason links mbox).1 = r) := by
  refine ⟨rfl, ?_, ?_, ?_, ?_⟩
  · exact flush_scan_mailbox pid default_reason mbox
  · intro r hr
    rw [show (unlink_flush pid default_reason links mbox).2.2
          = (flush_scan pid default_reason mbox).2 from rfl,
        flush_scan_mailbox pid default_reason mbox] at hr
    have := List.of_mem_filter hr
    simp [isExitFrom] at this
  · intro h
    exact flush_scan_default pid default_reason mbox h
  · intro pre r post hmb hpost
    subst hmb
    exact flush_scan_last pid default_reason pre r post hpost

/-- Witness for `unlink_flush_correct`: flushing a mailbox holding an exit
signal from an unrelated pid and one from the shut-down pid returns the
latter's reason. -/
theorem unlink_flush_correct_witness :
    (unlink_flush (α := Unit) ⟨3⟩ ExitReason.normal [⟨3⟩, ⟨4⟩]
        [Message.user (), Message.system (SystemMessage.exit ⟨4⟩ ExitReason.kill),
         Message.system (SystemMessage.exit ⟨3⟩ (ExitReason.custom "boom")),
         Message.user ()]).1 = ExitReason.custom "boom" := by
  have h := (unlink_flush_correct (α := Unit) ⟨3⟩ ExitReason.normal [⟨3⟩, ⟨4⟩]
      [Message.user (), Message.system (SystemMessage.exit ⟨4⟩ ExitReason.kill),
       Message.system (SystemMessage.exit ⟨3⟩ (ExitReason.custom "boom")),
       Message.user ()]).2.2.2.2
  exact h [Message.user (), Message.system (SystemMessage.exit ⟨4⟩ ExitReason.kill)]
      (ExitReason.custom "boom") [Message.user ()] rfl (by decide)

/-- The pid slot a successful (or Ignore) start records: `Some(pid)` for
`Ok(pid)`, `None` for an error (relevant only when it is Ignore). -/
def start_result_pid (c : SupervisedChild) : Option Pid :=
  match c.spec.start with
  | .ok p => some p
  | .error _ => none

/-- A child with its start outcome written into the pid slot. -/
def setStartPid (c : SupervisedChild) : SupervisedChild :=
  { c with pid := start_result_pid c }

/-- Whether a child's start thunk fails with a non-Ignore reason. -/
def startFails (c : SupervisedChild) : Bool :=
  match c.spec.start with
  | .ok _ => false
  | .error r => !r.is_ignore

/-- The loop of `Supervisor::start_children`: start each child in declaration
order, writing the returned pid into its slot and emitting a start event; the
first non-Ignore failure aborts the loop with `"failed_to_start_child"`,
leaving the failing child and its successors untouched. -/
def start_children_go :
    List SupervisedChild → List SupervisedChild × List SupAction × Option ExitReason
  | [] => ([], [], none)
  | c :: rest =>
    match start_child_spec c with
    | .ok pid =>
      ({ c with pid := pid } :: (start_children_go rest).1,
       SupAction.startedChild c.spec.id pid :: (start_children_go rest).2.1,
       (start_children_go rest).2.2)
    | .error _ => (c :: rest, [], some (ExitReason.custom "failed_to_start_child"))

/-- `Supervisor::start_children`: run the start loop; on success remove (in
descending index order, which amounts to filtering) the temporary children
whose start returned Ignore, erasing their ids; on failure return the
partially started state with the `"failed_to_start_child"` error. -/
def start_children (s : Supervisor) : Supervisor × List SupAction × Option ExitReason :=
  match (start_children_go s.children).2.2 with
  | some err =>
    ({ s with children := (start_children_go s.children).1 },
     (start_children_go s.children).2.1, some err)
  | none =>
    ({ s with
        children :=
          (start_children_go s.children).1.filter
            (fun c => !(c.is_temporary && c.pid.isNone))
        identifiers :=
          (((start_children_go s.children).1.filter
              (fun c => c.is_temporary && c.pid.isNone)).map
            (fun c => c.spec.id)).foldl List.erase s.identifiers },
     (start_children_go s.children).2.1, none)

/-- `Supervisor::terminate_children`: walk the children in reverse declaration
order, taking each occupied pid slot and shutting that pid down with the
child's shutdown policy; temporary children are removed (their ids erased)
and every kept child ends with an empty pid slot. Shutdown errors are logged
and ignored, so the walk never aborts. -/
def terminate_children (s : Supervisor) : Supervisor × List SupAction :=
  ({ s with
      children :=
        (s.children.filter (fun c => !c.is_temporary)).map (fun c => { c with pid := none })
      identifiers :=
        ((s.children.filter (fun c => c.is_temporary)).map
          (fun c => c.spec.id)).foldl List.erase s.identifiers },
   s.children.reverse.filterMap
     (fun c => c.pid.map (fun p => SupAction.shutdownChild p (shutdown_policy c))))

/-- `Supervisor::init_children`: start all children; on failure terminate the
partially started children and propagate the error. -/
def init_children (s : Supervisor) : Supervisor × List SupAction × Option ExitReason :=
  match (start_children s).2.2 with
  | some err =>
    ((terminate_children (start_children s).1).1,
     (start_children s).2.1 ++ (terminate_children (start_children s).1).2,
     some err)
  | none => start_children s

/-- `Supervisor::init` (the `GenServer` callback): set the `TRAP_EXIT` flag,
then run `init_children`. -/
def Supervisor.init (s : Supervisor) : Supervisor × List SupAction × Option ExitReason :=
  ((init_children s).1, SupAction.setTrapExit :: (init_children s).2.1,
   (init_children s).2.2)

/-- A non-failing start classifies as `Ok` of its recorded pid. -/
theorem start_child_spec_of_ok (c : SupervisedChild) (h : startFails c = false) :
    start_child_spec c = .ok (start_result_pid c) := by
  unfold start_child_spec start_result_pid
  cases hs : c.spec.start with
  | ok p => rfl
  | error r =>
    unfold startFails at h
    rw [hs] at h
    simp at h
    simp [h]

/-- A failing start classifies as an error. -/
theorem start_child_spec_of_fail (c : SupervisedChild) (h : startFails c = true) :
    ∃ r, start_child_spec c = .error r := by
  unfold start_child_spec
  cases hs : c.spec.start with
  | ok p =>
    unfold startFails at h
    rw [hs] at h
    simp at h
  | error r =>
    unfold startFails at h
    rw [hs] at h
    simp at h
    exact ⟨r, by simp [h]⟩

/-- When every start succeeds (or opts out), the loop records every outcome
and emits one start event per child, in declaration order. -/
theorem start_children_go_ok (l : List SupervisedChild)
    (h : ∀ c ∈ l, startFails c = false) :
    start_children_go l =
      (l.map setStartPid,
       l.map (fun c => SupAction.startedChild c.spec.id (start_result_pid c)),
       none) := by
  induction l with
  | nil => rfl
  | cons c rest ih =>
    have hok := start_child_spec_of_ok c (h c (by simp))
    have ih' := ih (fun x hx => h x (by simp [hx]))
    simp [start_children_go, hok, ih', setStartPid]

/-- When the starts of `pre` succeed and `c`'s start fails, the loop stops at
`c`: the children of `pre` carry their recorded pids, `c` and its successors
are untouched, exactly the events of `pre` were emitted, and the error is
`"failed_to_start_child"`. -/
theorem start_children_go_fail (pre : List SupervisedChild) (c : SupervisedChild)
    (post : List SupervisedChild) (hpre : ∀ x ∈ pre, startFails x = false)
    (hc : startFails c = true) :
    start_children_go (pre ++ c :: post) =
      (pre.map setStartPid ++ c :: post,
       pre.map (fun x => SupAction.startedChild x.spec.id (start_result_pid x)),
       some (ExitReason.custom "failed_to_start_child")) := by
  induction pre with
  | nil =>
    obtain ⟨r, hr⟩ := start_child_spec_of_fail c hc
    simp [start_children_go, hr]
  | cons a pre ih =>
    have hok := start_child_spec_of_ok a (hpre a (by simp))
    have ih' := ih (fun x hx => hpre x (by simp [hx]))
    simp [start_children_go, hok, ih', setStartPid]

/-- C6: `Supervisor::init` performs `TRAP_EXIT` before anything else — in
particular before starting any child (first conjunct). When no child's start
fails, init succeeds, the children are started in declaration order (one
start event each, in list order), every child's recorded pid is its start
outcome (`None` for an Ignore), and the temporary children whose start
returned Ignore are removed from the supervisor entirely (second conjunct).
When some child's start fails with a non-Ignore reason, init fails with
`"failed_to_start_child"` and the trace is: the start events of the children
before the failing one, in declaration order, followed by the shutdown of the
already-started children in reverse declaration order (third conjunct). -/
theorem supervisor_init_correct (s : Supervisor)
    (hnone : ∀ c ∈ s.children, c.pid = none) :
    ((Supervisor.init s).2.1.head? = some SupAction.setTrapExit) ∧
    ((∀ c ∈ s.children, startFails c = false) →
        (Supervisor.init s).2.2 = none ∧
        (Supervisor.init s).2.1
          = SupAction.setTrapExit
              :: s.children.map
                   (fun c => SupAction.startedChild c.spec.id (start_result_pid c)) ∧
        (Supervisor.init s).1.children
          = (s.children.map setStartPid).filter
              (fun c => !(c.is_temporary && c.pid.isNone))) ∧
    (∀ pre c post, s.children = pre ++ c :: post →
        (∀ x ∈ pre, startFails x = false) → startFails c = true →
        (Supervisor.init s).2.2 = some (ExitReason.custom "failed_to_start_child") ∧
        (Supervisor.init s).2.1
          = SupAction.setTrapExit
              :: (pre.map (fun x => SupAction.startedChild x.spec.id (start_result_pid x))
                  ++ (pre.map setStartPid).reverse.filterMap
                       (fun x => x.pid.map
                         (fun p => SupAction.shutdownChild p (shutdown_policy x))))) := by
  refine ⟨rfl, ?_, ?_⟩
  · intro h
    have hgo := start_children_go_ok s.children h
    unfold Supervisor.init init_children start_children
    rw [hgo]
    simp
  · intro pre c post hsplit hpre hfail
    have hgo := start_children_go_fail pre c post hpre hfail
    have hcpid : c.pid = none := hnone c (by rw [hsplit]; simp)
    have hpost : ∀ x ∈ post, x.pid = none := by
      intro x hx
      exact hnone x (by rw [hsplit]; simp [hx])
    unfold Supervisor.init init_children start_children terminate_children
    rw [hsplit, hgo]
    simp only [List.reverse_append, List.reverse_cons, List.filterMap_append]
    have h1 : post.reverse.filterMap
        (fun x => x.pid.map (fun p => SupAction.shutdownChild p (shutdown_policy x))) = [] := by
      rw [List.filterMap_eq_nil_iff]
      intro x hx
      rw [hpost x (List.mem_reverse.mp hx)]
      rfl
    have h2 : List.filterMap
        (fun x => x.pid.map (fun p => SupAction.shutdownChild p (shutdown_policy x))) [c]
          = [] := by
      simp [List.filterMap, hcpid]
    simp [h1, h2]

/-- A child specification whose start succeeds (concrete test data). -/
def okSpecC6 : ChildSpec :=
  { id := "a"
    start := .ok ⟨11⟩
    restart := .permanent
    shutdown := none
    child_type := .worker
    significant := false }

/-- A child specification whose start fails with a non-Ignore reason. -/
def failSpecC6 : ChildSpec :=
  { id := "b"
    start := .error (.custom "boom")
    restart := .permanent
    shutdown := none
    child_type := .worker
    significant := false }

/-- Supervisor whose first child starts and whose second child fails. -/
def supC6 : Supervisor :=
  { Supervisor.new with
      children := [{ spec := okSpecC6, pid := none }, { spec := failSpecC6, pid := none }]
      identifiers := ["a", "b"] }

/-- Witness for `supervisor_init_correct`: with one starting child followed by
one failing child, init fails with `"failed_to_start_child"` and the trace is
trap-exit, the start of "a", then the shutdown of "a"'s pid. -/
theorem supervisor_init_correct_witness :
    (Supervisor.init supC6).2.2 = some (ExitReason.custom "failed_to_start_child") ∧
    (Supervisor.init supC6).2.1
      = [SupAction.setTrapExit, SupAction.startedChild "a" (some ⟨11⟩),
         SupAction.shutdownChild ⟨11⟩ (Shutdown.duration 5000)] := by
  have h := (supervisor_init_correct supC6 (by decide)).2.2
      [{ spec := okSpecC6, pid := none }] { spec := failSpecC6, pid := none } []
      rfl (by decide) (by decide)
  exact ⟨h.1, by rw [h.2]; rfl⟩

/-- A child specification whose start always fails (concrete test data). -/
def failSpecC7 : ChildSpec :=
  { id := "child"
    start := .error (.custom "boom")
    restart := .permanent
    shutdown := none
    child_type := .worker
    significant := false }

/-- OneForOne supervisor with a single child whose start fails. -/
def supC7 : Supervisor :=
  { Supervisor.new with
      children := [{ spec := failSpecC7, pid := none }]
      identifiers := ["child"] }

/-- C7: under OneForOne, a failed restart of child `index` posts
`TryAgainRestartId(id)` to the supervisor itself (first conjunct, as the
claim states) — but `handle_cast` matches only `TryAgainRestartPid` and runs
every other message into its `unreachable!()` arm, so the retry message makes
the supervisor panic instead of retrying the restart (second conjunct,
refuting the claim's second half). -/
theorem handle_cast_unreachable_on_try_again_restart_id :
    restart supC7 0 = some (supC7, [SupAction.castTryAgainRestartId "child"]) ∧
    handle_cast supC7 (SupervisorMessage.tryAgainRestartId "child") = none :=
  ⟨rfl, rfl⟩

/-- Modelled from the spec: the `Hello` frame payload — node name, broadcast
address (abstracted to a numeric token), optional cookie bytes, and protocol
version (`frame.rs` is not under src/). -/
structure Hello where
  name : String
  broadcast_address : Nat
  cookie : String
  version : Nat
deriving DecidableEq, Repr

/-- Modelled from the spec: the frame kinds of the wire protocol
(`frame.rs` is not under src/): Hello, Ping, Pong, and an opaque user
envelope. -/
inductive Frame where
  | hello (h : Hello)
  | ping
  | pong
  | user (payload : List Nat)
deriving DecidableEq, Repr

/-- The message type of the remote-node sender task. -/
inductive NodeRemoteSenderMessage where
  | sendFrame (frame : Frame)
deriving DecidableEq, Repr

/-- One iteration of the `node_remote_sender` loop, by the outcome of
`timeout(heartbeat_interval, receive())`: `none` is a timeout, after which a
`Ping` frame is written; a received user message (`SendFrame(frame)`) hits an
arm whose body is empty in the source, so nothing is written; a received
system message falls into the `unreachable!()` arm, modelled as `none`. The
result lists the frames written to the socket during the iteration. -/
def node_remote_sender_step
    (received : Option (Message NodeRemoteSenderMessage)) : Option (List Frame) :=
  match received with
  | none => some [Frame.ping]
  | some (.user _) => some []
  | some _ => none

/-- C8: on a receive timeout the sender writes a `Ping` frame (first
conjunct, as the claim states) — but on receiving `SendFrame(frame)` it
writes nothing at all: the `Message::User` arm of the source is an empty
stub, refuting the claim's second half (second conjunct shows zero frames
written where the claim requires `[frame]`). -/
theorem node_remote_sender_drops_frames :
    node_remote_sender_step none = some [Frame.ping] ∧
    node_remote_sender_step
        (some (Message.user (NodeRemoteSenderMessage.sendFrame Frame.pong)))
      = some [] :=
  ⟨rfl, rfl⟩

/-- Modelled from the spec: `Hello::validate` checks version compatibility,
cookie match when one is configured, and a non-empty peer name
(`frame.rs` is not under src/). -/
def Hello.validate (localVersion : Nat) (localCookie : Option String)
    (h : Hello) : Bool :=
  h.version = localVersion &&
    (match localCookie with
     | none => true
     | some c => h.cookie = c) &&
    !(h.name = "")

/-- How a run of the accepter ends: a panic (with the panic message and
whether the session supervisor process had been spawned before the panic) or
a normal completion. -/
inductive AccepterResult where
  | panicked (msg : String) (spawned : Bool)
  | completed (spawned : Bool)
deriving DecidableEq, Repr

/-- The tail of `node_remote_accepter` after both Hello frames were exchanged
within the handshake timeout, translated from the source: an `if let` on the
received frame spawns `node_remote_supervisor` when the peer `Hello`
validates and panics with "Node handshake failed validation!" when it does
not — and then control falls through (there is no early return) to the
unconditional `panic!("Received incorrect frame for node handshake!")`,
which is also what a non-Hello frame reaches directly. -/
def node_remote_accepter_dispatch (frame : Frame) (localVersion : Nat)
    (localCookie : Option String) : AccepterResult :=
  match frame with
  | .hello h =>
    if Hello.validate localVersion localCookie h then
      .panicked "Received incorrect frame for node handshake!" true
    else
      .panicked "Node handshake failed validation!" false
  | _ => .panicked "Received incorrect frame for node handshake!" false

/-- C9: a peer Hello that passes validation does cause the session supervisor
to be spawned, but the accepter then panics unconditionally instead of
completing successfully — the `if let` in the source has no `return`, so the
success path falls into the final `panic!` (second conjunct; the first
conjunct checks the Hello is indeed valid). An invalid Hello and a non-Hello
frame panic without spawning (third and fourth conjuncts, as claimed). -/
theorem node_remote_accepter_panics_after_valid_hello :
    Hello.validate 1 none { name := "peer", broadcast_address := 0, cookie := "", version := 1 }
      = true ∧
    node_remote_accepter_dispatch
        (Frame.hello { name := "peer", broadcast_address := 0, cookie := "", version := 1 }) 1 none
      = AccepterResult.panicked "Received incorrect frame for node handshake!" true ∧
    node_remote_accepter_dispatch
        (Frame.hello { name := "", broadcast_address := 0, cookie := "", version := 1 }) 1 none
      = AccepterResult.panicked "Node handshake failed validation!" false ∧
    node_remote_accepter_dispatch Frame.ping 1 none
      = AccepterResult.panicked "Received incorrect frame for node handshake!" false := by
  refine ⟨rfl, ?_, ?_, rfl⟩ <;> rfl

/-- C10: `add_child` panics exactly when the new spec's id is already among
the recorded identifiers (first conjunct); otherwise it appends the child
with `pid = None`, records its id, and the identifier set again equals the
set of ids of the children vector (second conjunct, under the invariant that
it did so before the call). -/
theorem add_child_correct (s : Supervisor) (c : ChildSpec)
    (hinv : ∀ x, x ∈ s.identifiers ↔ x ∈ s.children.map (fun ch => ch.spec.id)) :
    (add_child s c = none ↔ c.id ∈ s.identifiers) ∧
    (∀ s2, add_child s c = some s2 →
        s2.children = s.children ++ [{ spec := c, pid := none }] ∧
        c.id ∈ s2.identifiers ∧
        (∀ x, x ∈ s2.identifiers ↔ x ∈ s2.children.map (fun ch => ch.spec.id))) := by
  by_cases h : c.id ∈ s.identifiers
  · refine ⟨by simp [add_child, h], ?_⟩
    intro s2 hs2
    simp [add_child, h] at hs2
  · refine ⟨by simp [add_child, h], ?_⟩
    intro s2 hs2
    simp only [add_child, if_neg h, Option.some.injEq] at hs2
    subst hs2
    refine ⟨rfl, by simp, ?_⟩
    intro x
    simp only [List.mem_cons, List.map_append, List.mem_append, List.map_cons,
      List.map_nil, List.mem_singleton]
    rw [hinv x]
    tauto

/-- A temporary child specification (concrete test data). -/
def specC10 : ChildSpec :=
  { id := "w"
    start := .ok ⟨21⟩
    restart := .temporary
    shutdown := none
    child_type := .worker
    significant := false }

/-- The supervisor produced by adding `specC10` to a fresh supervisor. -/
def supAfterC10 : Supervisor :=
  { Supervisor.new with
      identifiers := ["w"]
      children := [{ spec := specC10, pid := none }] }

/-- Witness for `add_child_correct` on a fresh supervisor. -/
theorem add_child_correct_witness :
    (add_child Supervisor.new specC10 = none ↔ specC10.id ∈ Supervisor.new.identifiers) ∧
    specC10.id ∈ supAfterC10.identifiers := by
  have h := add_child_correct Supervisor.new specC10 (by intro x; simp [Supervisor.new])
  exact ⟨h.1, (h.2 supAfterC10 rfl).2.1⟩
